import Mathlib

/-!
Shallow embedding of the GPS tracker `src/script.js` (the track-recording
and statistics engine): the haversine distance calculator, the path-distance
sum, the duration computation, the tracking session state (watch handle,
position buffer, start time) and the localStorage-backed track store, together
with theorems settling the specification claims about them.

Numbers: coordinates are real numbers (`ℝ`), epoch-millisecond times are
integers (`ℤ`), JS `Math.floor` on a quotient is `Int.fdiv`, JS `%` is
`Int.tmod`.  Browser/DOM collaborators (map, marker, HTML elements,
notifications) carry no logic relevant to the claims and are not modelled.
-/

namespace Script

/-- JS `Math.atan2 y x` over the reals (signed zeros collapse to `0`,
so `atan2 0 0 = 0`, matching `Math.atan2(+0, +0)`). -/
noncomputable def atan2 (y x : ℝ) : ℝ :=
  if 0 < x then Real.arctan (y / x)
  else if x < 0 then
    (if 0 ≤ y then Real.arctan (y / x) + Real.pi else Real.arctan (y / x) - Real.pi)
  else
    (if 0 < y then Real.pi / 2 else if y < 0 then -(Real.pi / 2) else 0)

/-- Model of `new Date(t).toLocaleString()` (line 161): an unspecified but
deterministic, injective rendering of the epoch-millisecond time. -/
def toLocaleString (t : Int) : String :=
  "date:" ++ toString t

/-- Model of `new Date(t).toLocaleTimeString()` (line 162). -/
def toLocaleTimeString (t : Int) : String :=
  "time:" ++ toString t

/-- JS `Math.round(ms / 1000)` on an integer number of milliseconds:
`Math.round x = Math.floor (x + 1/2)`, so this is `⌊(ms + 500) / 1000⌋`. -/
def jsRoundDiv1000 (ms : Int) : Int :=
  (ms + 500).fdiv 1000

/-- JS `t || d` where `t` is a possibly-absent number: `undefined` and `0`
are falsy and select the default `d`. -/
def jsOrNum (o : Option Int) (d : Int) : Int :=
  match o with
  | none => d
  | some t => if t = 0 then d else t

/-- One entry of the global `positions` array.  Line 56 stores the bare pair
`[latitude, longitude]`; the `timestamp` field models the (absent) JS
property read back by `getTrackingDuration` via `positions[i].timestamp`,
so ingestion always stores `none`. -/
structure GeoPos where
  lat : ℝ
  lon : ℝ
  timestamp : Option Int

/-- The track object built in `saveTrack` (lines 159-166). -/
structure TrackRecord where
  id : Int
  date : String
  startTime : String
  positions : List GeoPos
  distance : ℝ
  duration : String

/-- The raw `localStorage.getItem('gpsTracks')` payload, abstracted by its
parse outcome: `absent` (a falsy payload, rescued to `'[]'` by the
`|| '[]'` on line 158), `valid ts` (a payload `JSON.parse` turns into the
track list `ts`), or `malformed` (a payload on which `JSON.parse` throws). -/
inductive Payload where
  | absent
  | valid (tracks : List TrackRecord)
  | malformed

/-- The JS exception that escapes an uncaught `JSON.parse` failure. -/
inductive JsError where
  | parseException
deriving DecidableEq

/-- The mutable module-level state of the script: `watchId` (line 5,
`some` while a geolocation watch is registered, i.e. while recording),
`positions` (line 6), `startTime` (line 21 — declared, read by
`updateStats`, reset by `clearTracking`, but never assigned a time anywhere
in the script), and the `gpsTracks` storage payload. -/
structure AppState where
  watchId : Option Nat
  positions : List GeoPos
  startTime : Option Int
  storage : Payload

/-- `haversineDistance` (lines 186-196). -/
noncomputable def haversineDistance (lat1 lon1 lat2 lon2 : ℝ) : ℝ :=
  let R : ℝ := 6371
  let dLat := (lat2 - lat1) * Real.pi / 180
  let dLon := (lon2 - lon1) * Real.pi / 180
  let a :=
    Real.sin (dLat / 2) * Real.sin (dLat / 2) +
      Real.cos (lat1 * Real.pi / 180) * Real.cos (lat2 * Real.pi / 180) *
        (Real.sin (dLon / 2) * Real.sin (dLon / 2))
  let c := 2 * atan2 (Real.sqrt a) (Real.sqrt (1 - a))
  R * c

/-- `calculateDistance` (lines 175-183): the loop from `i = 1` accumulating
the haversine distance of each consecutive pair, written as structural
recursion on the list. -/
noncomputable def calculateDistance : List GeoPos → ℝ
  | [] => 0
  | [_] => 0
  | p :: q :: rest =>
      haversineDistance p.lat p.lon q.lat q.lon + calculateDistance (q :: rest)

/-- `getTrackingDuration` (lines 199-205).  `now` is `Date.now()`.
`positions[0].timestamp || Date.now() - positions.length * 1000` and
`positions[len-1].timestamp || Date.now()` are the two `jsOrNum` reads;
the result is `round((end - start)/1000)` formatted as minutes/seconds. -/
def getTrackingDuration (positions : List GeoPos) (now : Int) : String :=
  match positions with
  | [] => "0s"
  | [_] => "0s"
  | p :: q :: rest =>
      let lastPos := (q :: rest).getLastD p
      let start := jsOrNum p.timestamp (now - (p :: q :: rest).length * 1000)
      let endT := jsOrNum lastPos.timestamp now
      let seconds := jsRoundDiv1000 (endT - start)
      toString (seconds.fdiv 60) ++ "m " ++ toString (seconds.tmod 60) ++ "s"

/-- The read half of `saveTrack` line 158:
`JSON.parse(localStorage.getItem('gpsTracks') || '[]')`.  A falsy payload
parses as the empty list; a malformed payload throws (the script has no
`try`/`catch`, so the exception propagates). -/
def loadTracks (storage : Payload) : Except JsError (List TrackRecord) :=
  match storage with
  | Payload.absent => Except.ok []
  | Payload.valid tracks => Except.ok tracks
  | Payload.malformed => Except.error JsError.parseException

/-- The store-append operation of `saveTrack` (lines 158, 167, 168) applied
to a given record: parse the existing collection, push, write back. -/
def appendTrack (r : TrackRecord) (storage : Payload) : Except JsError Payload :=
  (loadTracks storage).map (fun tracks => Payload.valid (tracks ++ [r]))

/-- `saveTrack` (lines 155-172).  Returns the storage payload after the
call, the record saved (if any), and the exception that escaped (if any).
Fewer than 2 positions: the early `return` on line 156 — storage untouched,
no record, no error, no notification.  Otherwise the existing collection is
parsed (an exception propagating if it is malformed), and the new track —
`id: Date.now()`, distance `calculateDistance(positions)`, duration
`getTrackingDuration()` — is appended and returned. -/
noncomputable def saveTrack (positions : List GeoPos) (storage : Payload) (now : Int) :
    Payload × Option TrackRecord × Option JsError :=
  if positions.length < 2 then (storage, none, none)
  else
    match loadTracks storage with
    | Except.error e => (storage, none, some e)
    | Except.ok tracks =>
        let newTrack : TrackRecord :=
          { id := now
            date := toLocaleString now
            startTime := toLocaleTimeString now
            positions := positions
            distance := calculateDistance positions
            duration := getTrackingDuration positions now }
        (Payload.valid (tracks ++ [newTrack]), some newTrack, none)

/-- `stopTracking` (lines 142-152): clear the watch (leaving `watchId`
null either way), then `saveTrack()`.  The position buffer is *not*
cleared.  Returns the state after the call plus `saveTrack`'s record and
escaped-exception outcomes. -/
noncomputable def stopTracking (s : AppState) (now : Int) :
    AppState × Option TrackRecord × Option JsError :=
  let s1 : AppState := { s with watchId := none }
  let r := saveTrack s1.positions s1.storage now
  ({ s1 with storage := r.1 }, r.2.1, r.2.2)

/-- `startTracking` (lines 33-72), geolocation-supported branch: clears
`positions` and registers a fresh watch (`newWatchId` is the handle
`watchPosition` returns).  There is no check of the current `watchId`
(no already-recording failure) and `startTime` is not assigned. -/
def startTracking (s : AppState) (newWatchId : Nat) : AppState :=
  { s with positions := [], watchId := some newWatchId }

/-- The `watchPosition` success callback (lines 43-57): the wrapper
installed on `DOMContentLoaded` (lines 225-236) stamps
`coords.timestamp = capturedAtEpochMillis`, but line 56 pushes only
`[latitude, longitude]`, so the stored entry has no timestamp and the
capture time is never consulted.  Display-only fields (speed, accuracy)
are omitted. -/
def ingestPosition (s : AppState) (lat lon : ℝ) (capturedAtEpochMillis : Int) :
    AppState :=
  { s with positions := s.positions ++ [{ lat := lat, lon := lon, timestamp := none }] }

/-- The display texts `updateStats` (lines 101-118) writes, as a pure view
of the state: the point count is always written; the duration text only
when `startTime` is truthy; the distance only when more than one position
is stored. -/
structure StatsView where
  pointCount : Nat
  durationText : Option String
  distanceKm : Option ℝ

/-- `updateStats` (lines 101-118) as a pure snapshot at wall-clock `now`. -/
noncomputable def updateStats (s : AppState) (now : Int) : StatsView :=
  { pointCount := s.positions.length
    durationText :=
      match s.startTime with
      | none => none
      | some t0 =>
          let seconds := (now - t0).fdiv 1000
          some (toString (seconds.fdiv 60) ++ "m " ++ toString (seconds.tmod 60) ++ "s")
    distanceKm :=
      if 1 < s.positions.length then some (calculateDistance s.positions) else none }

/-- The ids of the records the store currently holds (empty on a parse
failure), used to observe the persisted collection. -/
def storedIds (storage : Payload) : List Int :=
  match loadTracks storage with
  | Except.ok tracks => tracks.map (fun r => r.id)
  | Except.error _ => []

/-- The position lists of the records the store currently holds. -/
def storedPositions (storage : Payload) : List (List GeoPos) :=
  match loadTracks storage with
  | Except.ok tracks => tracks.map (fun r => r.positions)
  | Except.error _ => []

/-- The distances of the records the store currently holds. -/
def storedDistances (storage : Payload) : List ℝ :=
  match loadTracks storage with
  | Except.ok tracks => tracks.map (fun r => r.distance)
  | Except.error _ => []

/-- Two concrete positions, as stored by ingestion (no timestamps). -/
def demoPositions : List GeoPos :=
  [{ lat := 0, lon := 0, timestamp := none }, { lat := 0, lon := 1, timestamp := none }]

/-- Three concrete positions, as stored by ingestion (no timestamps). -/
def demoPositions3 : List GeoPos :=
  [{ lat := 0, lon := 0, timestamp := none },
   { lat := 0, lon := 1, timestamp := none },
   { lat := 0, lon := 2, timestamp := none }]

/-- A recording-state session holding the two demo positions over an empty
store. -/
def demoState : AppState :=
  { watchId := some 1, positions := demoPositions, startTime := none,
    storage := Payload.absent }

/-- A recording-state session that has ingested a single position. -/
def shortState : AppState :=
  { watchId := some 1, positions := [{ lat := 0, lon := 0, timestamp := none }],
    startTime := none, storage := Payload.absent }

/-- A freshly started recording session with an empty position buffer. -/
def recState0 : AppState :=
  { watchId := some 1, positions := [], startTime := none, storage := Payload.absent }

/-- Following the words of the specification, not the source (for
comparison in claim C4): the duration as "wall-clock elapsed time (time
since session start)", rounded to seconds and formatted the way the script
formats durations. -/
def specWallClockDuration (startedAtEpochMillis now : Int) : String :=
  let seconds := jsRoundDiv1000 (now - startedAtEpochMillis)
  toString (seconds.fdiv 60) ++ "m " ++ toString (seconds.tmod 60) ++ "s"

/-- The record `saveTrack` builds from the demo positions at stop time
`now` over an empty store. -/
noncomputable def demoRecord (now : Int) : TrackRecord :=
  { id := now
    date := toLocaleString now
    startTime := toLocaleTimeString now
    positions := demoPositions
    distance := calculateDistance demoPositions
    duration := getTrackingDuration demoPositions now }

end Script

namespace Script

/-- The fully unfolded form of `haversineDistance`. -/
theorem haversineDistance_def (lat1 lon1 lat2 lon2 : ℝ) :
    haversineDistance lat1 lon1 lat2 lon2 =
      6371 * (2 * atan2
        (Real.sqrt
          (Real.sin ((lat2 - lat1) * Real.pi / 180 / 2) *
              Real.sin ((lat2 - lat1) * Real.pi / 180 / 2) +
            Real.cos (lat1 * Real.pi / 180) * Real.cos (lat2 * Real.pi / 180) *
              (Real.sin ((lon2 - lon1) * Real.pi / 180 / 2) *
                Real.sin ((lon2 - lon1) * Real.pi / 180 / 2))))
        (Real.sqrt
          (1 - (Real.sin ((lat2 - lat1) * Real.pi / 180 / 2) *
              Real.sin ((lat2 - lat1) * Real.pi / 180 / 2) +
            Real.cos (lat1 * Real.pi / 180) * Real.cos (lat2 * Real.pi / 180) *
              (Real.sin ((lon2 - lon1) * Real.pi / 180 / 2) *
                Real.sin ((lon2 - lon1) * Real.pi / 180 / 2)))))) := rfl

/-- `Math.atan2 0 1 = 0`. -/
theorem atan2_zero_one : atan2 0 1 = 0 := by
  norm_num [atan2, Real.arctan_zero]

/-- The haversine half-angle combination is symmetric in the two points. -/
theorem haversine_a_symm (lat1 lon1 lat2 lon2 : ℝ) :
    Real.sin ((lat2 - lat1) * Real.pi / 180 / 2) *
        Real.sin ((lat2 - lat1) * Real.pi / 180 / 2) +
      Real.cos (lat1 * Real.pi / 180) * Real.cos (lat2 * Real.pi / 180) *
        (Real.sin ((lon2 - lon1) * Real.pi / 180 / 2) *
          Real.sin ((lon2 - lon1) * Real.pi / 180 / 2)) =
    Real.sin ((lat1 - lat2) * Real.pi / 180 / 2) *
        Real.sin ((lat1 - lat2) * Real.pi / 180 / 2) +
      Real.cos (lat2 * Real.pi / 180) * Real.cos (lat1 * Real.pi / 180) *
        (Real.sin ((lon1 - lon2) * Real.pi / 180 / 2) *
          Real.sin ((lon1 - lon2) * Real.pi / 180 / 2)) := by
  have h1 : (lat1 - lat2) * Real.pi / 180 / 2 = -((lat2 - lat1) * Real.pi / 180 / 2) := by
    ring
  have h2 : (lon1 - lon2) * Real.pi / 180 / 2 = -((lon2 - lon1) * Real.pi / 180 / 2) := by
    ring
  rw [h1, h2, Real.sin_neg, Real.sin_neg]
  ring

/-- Claim C5, counterexample: the claim says `haversineDistanceKm(a,b)` is
zero only if `a = b` (within floating epsilon), but the two distinct
coordinate pairs `(90, 0)` and `(90, 10)` — both valid, differing by 10
degrees of longitude, far beyond any floating epsilon — have haversine
distance exactly 0 (at latitude 90 the longitude term is multiplied by
`cos (π/2) = 0`). -/
theorem haversine_zero_at_distinct_points :
    haversineDistance 90 0 90 10 = 0 ∧ ((90:ℝ), (0:ℝ)) ≠ ((90:ℝ), (10:ℝ)) := by
  constructor
  · rw [haversineDistance_def]
    have h1 : ((90:ℝ) - 90) * Real.pi / 180 / 2 = 0 := by ring
    have h2 : (90:ℝ) * Real.pi / 180 = Real.pi / 2 := by ring
    rw [h1, h2, Real.sin_zero, Real.cos_pi_div_two]
    norm_num [Real.sqrt_zero, Real.sqrt_one, atan2_zero_one]
  · intro h
    have h2 := congrArg Prod.snd h
    norm_num at h2

/-- Claim C5, amended: `haversineDistance` is symmetric and vanishes on
equal coordinate pairs; the converse (zero only at equal pairs) fails, as
the counterexample shows, because distinct pairs can denote the same
point on the sphere. -/
theorem haversine_symm_and_self_zero (lat1 lon1 lat2 lon2 : ℝ) :
    haversineDistance lat1 lon1 lat2 lon2 = haversineDistance lat2 lon2 lat1 lon1 ∧
    haversineDistance lat1 lon1 lat1 lon1 = 0 := by
  constructor
  · rw [haversineDistance_def, haversineDistance_def, haversine_a_symm]
  · rw [haversineDistance_def]
    have h1 : (lat1 - lat1) * Real.pi / 180 / 2 = 0 := by ring
    have h2 : (lon1 - lon1) * Real.pi / 180 / 2 = 0 := by ring
    rw [h1, h2, Real.sin_zero]
    norm_num [Real.sqrt_zero, Real.sqrt_one, atan2_zero_one]

/-- Claim C6: `calculateDistance` of a sequence equals the sum of
`haversineDistance` over consecutive pairs in sequence order, and returns
0 for the empty and the one-point sequence.  (Being a plain function of
its argument, it is pure and deterministic.) -/
theorem calculateDistance_consecutive_sum (points : List GeoPos) :
    calculateDistance points =
      ((points.zip points.tail).map
        (fun pq => haversineDistance pq.1.lat pq.1.lon pq.2.lat pq.2.lon)).sum ∧
    calculateDistance ([] : List GeoPos) = 0 ∧
    ∀ p : GeoPos, calculateDistance [p] = 0 := by
  refine ⟨?_, rfl, fun p => rfl⟩
  induction points with
  | nil => simp [calculateDistance]
  | cons p rest ih =>
    cases rest with
    | nil => simp [calculateDistance]
    | cons q rest2 =>
      simp only [List.tail_cons] at ih ⊢
      simp only [calculateDistance, List.zip_cons_cons, List.map_cons, List.sum_cons]
      rw [ih]

end Script

namespace Script

/-- Claim C2, counterexample: the claim says a sample timestamped before
the last stored sample is silently dropped.  In a fresh recording session,
ingest a sample captured at epoch-millisecond 100, then a stale one
captured at 50 (`50 < 100`): the position buffer grows from 1 to 2 — the
stale sample is appended, not dropped (the callback never consults the
capture time). -/
theorem ingest_stale_appends :
    (50:Int) < 100 ∧
    (ingestPosition (ingestPosition recState0 0 0 100) 0 1 50).positions.length = 2 ∧
    (ingestPosition recState0 0 0 100).positions.length = 1 :=
  ⟨by norm_num, rfl, rfl⟩

/-- Claim C2, amended: `ingest` appends every delivered sample
unconditionally — the capture timestamp is never compared with anything —
so every ingest, stale or not, grows the sample sequence by exactly 1. -/
theorem ingest_always_appends (s : AppState) (lat lon : ℝ) (capturedAt : Int) :
    (ingestPosition s lat lon capturedAt).positions.length = s.positions.length + 1 := by
  simp [ingestPosition]

/-- Claim C3, counterexample: `shortState` is a recording session
(`watchId` is set, one sample ingested).  Calling `startTracking` on it
does not fail with any already-recording error — it installs the fresh
watch and clears the buffer — and it leaves `startTime` at `none`: the
script never assigns `startTime`, so `start()` does not set
`startedAtEpochMillis` to the current time (it has no access to a clock at
all). -/
theorem start_while_recording_counterexample :
    (startTracking shortState 2).watchId = some 2 ∧
    (startTracking shortState 2).positions = [] ∧
    (startTracking shortState 2).startTime = none :=
  ⟨rfl, rfl, rfl⟩

/-- Claim C3, amended: from any state — including while already recording,
which does not fail — `startTracking` clears the sample sequence and
installs the new watch (transitioning to Recording), so the point count
reported immediately afterwards is 0; it never touches `startTime` (no
start time is recorded, hence the elapsed-time display is never
recomputed: `updateStats` leaves the duration text alone whenever
`startTime` is unset). -/
theorem startTracking_characterization (s : AppState) (nid : Nat) (now : Int) :
    startTracking s nid =
      { watchId := some nid, positions := [], startTime := s.startTime,
        storage := s.storage } ∧
    (updateStats (startTracking s nid) now).pointCount = 0 ∧
    (updateStats (startTracking s nid) now).durationText =
      (updateStats s now).durationText :=
  ⟨rfl, rfl, rfl⟩

/-- Claim C1: stopping with fewer than 2 ingested samples yields the
insufficient-data outcome — no record is produced, nothing is appended to
the store, no exception escapes, and the session still leaves the
recording state (`watchId` cleared); stopping with 2 or more samples (over
a parseable store holding `ts`) produces a record whose `distance` is
`calculateDistance` of the session's ordered sample sequence, appended to
the store. -/
theorem stop_insufficient_and_record (s : AppState) (now : Int) :
    (s.positions.length < 2 →
      stopTracking s now = ({ s with watchId := none }, none, none)) ∧
    (∀ ts, loadTracks s.storage = Except.ok ts → 2 ≤ s.positions.length →
      ((stopTracking s now).2.1).map (fun r => r.distance) =
        some (calculateDistance s.positions) ∧
      ((stopTracking s now).2.1).map (fun r => r.positions) = some s.positions ∧
      (stopTracking s now).1.storage =
        Payload.valid (ts ++ ((stopTracking s now).2.1).toList) ∧
      (stopTracking s now).1.watchId = none ∧
      (stopTracking s now).2.2 = none) := by
  constructor
  · intro h
    simp [stopTracking, saveTrack, h]
  · intro ts hload hlen
    have hnot : ¬ (s.positions.length < 2) := by omega
    simp [stopTracking, saveTrack, hnot, hload]

/-- Witness for C1 at concrete inputs: a one-sample session stops with no
record and no append; the two-sample demo session stops with a record of
the correct distance appended to the empty store. -/
theorem stop_insufficient_and_record_witness :
    stopTracking shortState 5 = ({ shortState with watchId := none }, none, none) ∧
    ((stopTracking demoState 7).2.1).map (fun r => r.distance) =
      some (calculateDistance demoState.positions) ∧
    ((stopTracking demoState 7).2.1).map (fun r => r.positions) =
      some demoState.positions ∧
    (stopTracking demoState 7).1.storage =
      Payload.valid ([] ++ ((stopTracking demoState 7).2.1).toList) ∧
    (stopTracking demoState 7).1.watchId = none ∧
    (stopTracking demoState 7).2.2 = none := by
  have h1 := (stop_insufficient_and_record shortState 5).1 (by decide)
  have h2 := (stop_insufficient_and_record demoState 7).2 [] rfl (by decide)
  exact ⟨h1, h2.1, h2.2.1, h2.2.2.1, h2.2.2.2.1, h2.2.2.2.2⟩

end Script

namespace Script

/-- Claim C4, counterexample: a session that started at epoch-millisecond 0
has ingested three samples and is stopped at `now = 100000` (100 seconds of
wall-clock time).  Every stored sample's timestamp is absent (ingestion
stores bare coordinate pairs), so the claim requires the fallback —
wall-clock elapsed time, `"1m 40s"` — yet the code reports `"0m 3s"`: its
fallback is `Date.now() - positions.length * 1000`, one second per stored
point, not time since session start. -/
theorem duration_fallback_counterexample :
    demoPositions3.all (fun p => p.timestamp.isNone) = true ∧
    getTrackingDuration demoPositions3 100000 = "0m 3s" ∧
    specWallClockDuration 0 100000 = "1m 40s" ∧
    getTrackingDuration demoPositions3 100000 ≠ specWallClockDuration 0 100000 := by
  refine ⟨rfl, by decide, by decide, by decide⟩

/-- Claim C4, amended: sample timestamps are never available — line 56
stores plain `[latitude, longitude]` pairs, discarding the capture time the
wrapper stamped — so the duration of a saved track always takes the
fallback branch, and that fallback is one second per stored sample
(`round((positions.length * 1000) / 1000)` seconds), independent of the
wall-clock time and of any session start time. -/
theorem duration_one_second_per_point (positions : List GeoPos) (now : Int)
    (hts : ∀ p ∈ positions, p.timestamp = none) (hlen : 2 ≤ positions.length) :
    getTrackingDuration positions now =
      toString ((positions.length : Int).fdiv 60) ++ "m " ++
        toString ((positions.length : Int).tmod 60) ++ "s" := by
  rcases positions with _ | ⟨p, _ | ⟨q, rest⟩⟩
  · exact absurd hlen (by simp)
  · exact absurd hlen (by simp)
  · have hp : p.timestamp = none := hts p (by simp)
    have hl : ((q :: rest).getLastD p).timestamp = none :=
      hts _ (List.getLastD_mem_cons (q :: rest) p)
    simp only [getTrackingDuration, hp, hl, jsOrNum]
    have key : jsRoundDiv1000 (now - (now - ((p :: q :: rest).length : Int) * 1000)) =
        ((p :: q :: rest).length : Int) := by
      have h1 : now - (now - ((p :: q :: rest).length : Int) * 1000) =
          ((p :: q :: rest).length : Int) * 1000 := by ring
      rw [h1]
      unfold jsRoundDiv1000
      rw [Int.fdiv_eq_ediv _ (by norm_num)]
      omega
    rw [key]

end Script

namespace Script

/-- Witness for the amended C4 at a concrete input: the three-sample
session reports a three-second duration whatever the clock reads. -/
theorem duration_one_second_per_point_witness :
    getTrackingDuration demoPositions3 500000 =
      toString ((demoPositions3.length : Int).fdiv 60) ++ "m " ++
        toString ((demoPositions3.length : Int).tmod 60) ++ "s" :=
  duration_one_second_per_point demoPositions3 500000 (by decide) (by decide)

/-- Claim C7: `loadAll` on an empty store returns the empty sequence, and
appending a record `r` to the empty store and loading back returns exactly
the one record `r` (all fields, being `r` itself, match). -/
theorem store_empty_and_append_roundtrip :
    loadTracks Payload.absent = Except.ok [] ∧
    ∀ r : TrackRecord,
      appendTrack r Payload.absent = Except.ok (Payload.valid [r]) ∧
      loadTracks (Payload.valid [r]) = Except.ok [r] :=
  ⟨rfl, fun _ => ⟨rfl, rfl⟩⟩

/-- Claim C8, counterexample: on a stored payload that cannot be parsed,
loading the persisted collection neither reports a dedicated
corrupt-data error nor recovers by treating the store as empty: the
uncaught `JSON.parse` exception simply propagates. -/
theorem corrupt_store_counterexample :
    loadTracks Payload.malformed = Except.error JsError.parseException ∧
    loadTracks Payload.malformed ≠ Except.ok [] :=
  ⟨rfl, fun h => Except.noConfusion h⟩

/-- Claim C8, amended: with a malformed stored payload and at least 2
positions, `saveTrack` crashes with the unhandled parse exception —
nothing is appended, no record is produced, and no recovery or dedicated
corrupt-data error exists in the script. -/
theorem corrupt_store_exception_propagates (positions : List GeoPos) (now : Int)
    (hlen : 2 ≤ positions.length) :
    saveTrack positions Payload.malformed now =
      (Payload.malformed, none, some JsError.parseException) := by
  have hnot : ¬ (positions.length < 2) := by omega
  simp [saveTrack, hnot, loadTracks]

/-- Witness for the amended C8 at a concrete input. -/
theorem corrupt_store_exception_propagates_witness :
    saveTrack demoPositions Payload.malformed 99 =
      (Payload.malformed, none, some JsError.parseException) :=
  corrupt_store_exception_propagates demoPositions 99 (by decide)

/-- Any record `saveTrack` produces carries `id = now`, the stop-time
`Date.now()` value. -/
theorem saveTrack_id_eq (ps : List GeoPos) (st : Payload) (now : Int)
    (r : TrackRecord) (h : (saveTrack ps st now).2.1 = some r) : r.id = now := by
  unfold saveTrack at h
  split at h
  · simp at h
  · split at h
    · simp at h
    · simp only [Option.some.injEq] at h
      rw [← h]

/-- Claim C9, counterexample: two distinct stop events falling in the same
millisecond (`Date.now()` returns 1000 both times) persist two records with
the same id 1000 — ids are not unique across stop events. -/
theorem duplicate_id_counterexample :
    storedIds (stopTracking (stopTracking demoState 1000).1 1000).1.storage =
      [1000, 1000] ∧
    ¬ (storedIds (stopTracking (stopTracking demoState 1000).1 1000).1.storage).Nodup := by
  refine ⟨rfl, ?_⟩
  have h : storedIds (stopTracking (stopTracking demoState 1000).1 1000).1.storage =
      [1000, 1000] := rfl
  rw [h]
  decide

/-- Claim C9, amended: a record's id is the `Date.now()` millisecond of its
stop event, so records from stop events at distinct milliseconds have
distinct ids (and only those: stops sharing a millisecond share an id, as
the counterexample shows). -/
theorem record_id_is_stop_time (ps1 : List GeoPos) (st1 : Payload) (now1 : Int)
    (r1 : TrackRecord) (ps2 : List GeoPos) (st2 : Payload) (now2 : Int)
    (r2 : TrackRecord)
    (h1 : (saveTrack ps1 st1 now1).2.1 = some r1)
    (h2 : (saveTrack ps2 st2 now2).2.1 = some r2)
    (hne : now1 ≠ now2) : r1.id ≠ r2.id := by
  rw [saveTrack_id_eq ps1 st1 now1 r1 h1, saveTrack_id_eq ps2 st2 now2 r2 h2]
  exact hne

/-- Witness for the amended C9 at concrete inputs: stops at milliseconds 3
and 5 produce records with distinct ids. -/
theorem record_id_is_stop_time_witness : (demoRecord 3).id ≠ (demoRecord 5).id :=
  record_id_is_stop_time demoPositions Payload.absent 3 (demoRecord 3)
    demoPositions Payload.absent 5 (demoRecord 5) rfl rfl (by decide)

/-- Claim C10: `stopTracking` performs no state-machine check before
persisting — whenever the retained position buffer holds 2 or more
entries (in particular right after a previous stop, before any new
start), stopping again appends another copy of the same track (same
positions, same distance) to the persisted collection instead of failing
with a lifecycle error: after two stops the store holds the prior records
plus two copies, the second stop again produces a record, and no error
outcome exists. -/
theorem double_stop_appends_twice (s : AppState) (now1 now2 : Int)
    (ts : List TrackRecord) (hload : loadTracks s.storage = Except.ok ts)
    (hlen : 2 ≤ s.positions.length) :
    storedPositions (stopTracking (stopTracking s now1).1 now2).1.storage =
      ts.map (fun r => r.positions) ++ [s.positions, s.positions] ∧
    storedDistances (stopTracking (stopTracking s now1).1 now2).1.storage =
      ts.map (fun r => r.distance) ++
        [calculateDistance s.positions, calculateDistance s.positions] ∧
    (stopTracking (stopTracking s now1).1 now2).2.2 = none ∧
    ((stopTracking (stopTracking s now1).1 now2).2.1).isSome = true := by
  have hnot : ¬ (s.positions.length < 2) := by omega
  have hv : ∀ l : List TrackRecord, loadTracks (Payload.valid l) = Except.ok l :=
    fun _ => rfl
  simp [stopTracking, saveTrack, hnot, hload, hv, storedPositions, storedDistances]

/-- Witness for C10 at a concrete input: stopping the two-sample demo
session twice appends two identical tracks to the empty store. -/
theorem double_stop_appends_twice_witness :
    storedPositions (stopTracking (stopTracking demoState 1000).1 2000).1.storage =
      ([] : List TrackRecord).map (fun r => r.positions) ++
        [demoState.positions, demoState.positions] ∧
    storedDistances (stopTracking (stopTracking demoState 1000).1 2000).1.storage =
      ([] : List TrackRecord).map (fun r => r.distance) ++
        [calculateDistance demoState.positions, calculateDistance demoState.positions] ∧
    (stopTracking (stopTracking demoState 1000).1 2000).2.2 = none ∧
    ((stopTracking (stopTracking demoState 1000).1 2000).2.1).isSome = true :=
  double_stop_appends_twice demoState 1000 2000 [] rfl (by decide)

end Script
